import Mathlib

/-!
Verification development for the sandboxed execution subsystem of the
koala-app backend (src/backend/code_executor.py, subprocess_executor.py,
main.py).  The Python source is shallowly embedded: the validator's
denylist matching, the code wrapper's data-loading emission and
result-capture classification, the result collector's branch structure,
the workspace lifecycle, and the child-process resource limits are
translated into executable Lean definitions, and the specification's
claims are settled against them.
-/

namespace Koala

/-! ## String utilities (Python substring test and str.lower) -/

/-- ASCII lowercasing, modelling Python str.lower() on the ASCII strings the
validators compare (Char.toLower lowercases exactly the ASCII uppercase
letters appearing in those strings). -/
def strLower (s : String) : String :=
  String.mk (s.toList.map Char.toLower)

/-- Whether the first character list is an initial segment of the second. -/
def listStartsWith : List Char → List Char → Bool
  | [], _ => true
  | _ :: _, [] => false
  | a :: as, b :: bs => a == b && listStartsWith as bs

/-- Whether the first character list occurs contiguously inside the second. -/
def listHasSub (needle : List Char) : List Char → Bool
  | [] => needle.isEmpty
  | b :: bs => listStartsWith needle (b :: bs) || listHasSub needle bs

/-- Python's substring containment test `needle in hay`. -/
def strContains (hay needle : String) : Bool :=
  listHasSub needle.toList hay.toList

/-- Python's `s.startswith(pre)`. -/
def strStartsWith (s pre : String) : Bool :=
  listStartsWith pre.toList s.toList

/-! ## Path utilities (pathlib.Path name and suffix) -/

/-- Model of pathlib `Path(p).name`: the final slash-separated component
(trailing slashes are dropped first, as pathlib does). -/
def pathName (p : String) : String :=
  let cs := (p.toList.reverse.dropWhile (fun c => c == '/')).reverse
  String.mk (cs.foldl (fun acc c => if c == '/' then [] else acc ++ [c]) [])

/-- Index of the last dot of a character list, if any. -/
def lastDotIdx (cs : List Char) : Option Nat :=
  match cs.reverse.findIdx? (fun c => c == '.') with
  | some j => some (cs.length - 1 - j)
  | none => none

/-- Model of pathlib `Path(p).suffix`: the part of the final component from
its last dot on, provided that dot is neither the first nor the last
character of the component; otherwise the empty string. -/
def pathSuffix (p : String) : String :=
  let cs := (pathName p).toList
  match lastDotIdx cs with
  | some i => if 0 < i ∧ i < cs.length - 1 then String.mk (cs.drop i) else ""
  | none => ""

/-! ## Validator (CodeExecutor.validate_code, SubprocessExecutor.validate_code) -/

/-- The denylist of CodeExecutor.validate_code (code_executor.py lines
254-271), in source order. -/
def dockerForbiddenPatterns : List String :=
  ["import os", "import subprocess", "import sys", "import socket",
   "__import__", "eval(", "exec(", "compile(", "open(", "file(", "input(",
   "raw_input(", "globals(", "locals(", "vars(", "dir("]

/-- The denylist of SubprocessExecutor.validate_code (subprocess_executor.py
lines 288-315), in source order. -/
def subprocForbiddenPatterns : List String :=
  ["__import__", "eval", "exec", "compile", "open", "file", "input",
   "raw_input", "globals", "locals", "vars", "getattr", "setattr",
   "delattr", "hasattr", "__dict__", "__class__", "__base__",
   "__subclasses__", "mro", "__code__", "__closure__", "__func__",
   "__self__", "__module__", "__builtins__"]

/-- Model of CodeExecutor.validate_code (code_executor.py lines 243-283).
The codeChk argument abstracts the CPython `compile(code, ..., 'exec')`
syntax check the source calls last: none means the code parses, some e
means a SyntaxError with message e.  The denylist is checked first,
case-insensitively (both the code and each pattern are lowercased), and the
first pattern in source order whose lowercase form occurs in the lowercased
code is reported; only when none matches is the syntax check consulted.
Returns (is_valid, error_message) as the source does. -/
def CodeExecutor.validateCode (codeChk : String → Option String) (code : String) :
    Bool × Option String :=
  let codeLower := strLower code
  match dockerForbiddenPatterns.find?
      (fun p => strContains codeLower (strLower p)) with
  | some p => (false, some ("Forbidden pattern detected: " ++ p))
  | none =>
    match codeChk code with
    | some e => (false, some ("Syntax error: " ++ e))
    | none => (true, none)

/-- Model of SubprocessExecutor.validate_code (subprocess_executor.py lines
277-327): same structure as the docker variant but with its own pattern
list and case-sensitive containment. -/
def SubprocessExecutor.validateCode (codeChk : String → Option String)
    (code : String) : Bool × Option String :=
  match subprocForbiddenPatterns.find? (fun p => strContains code p) with
  | some p => (false, some ("Forbidden pattern detected: " ++ p))
  | none =>
    match codeChk code with
    | some e => (false, some ("Syntax error: " ++ e))
    | none => (true, none)

/-- Concrete stand-in for the CPython syntax check on the inputs used in this
development: the string "eval(" does not parse as Python (its parenthesis
is never closed), every other string fed to it here does. -/
def compileStub (s : String) : Option String :=
  if s = "eval(" then some "unexpected EOF while parsing" else none

/-! ## Runtime values of the generated program

The wrapped program's variables are classified by runtime type
(pandas DataFrame / Series, int, float, str, bool, list, dict, module).
Floats are carried as abstract rationals: the capture logic only inspects
the runtime type, never float arithmetic. -/

/-- A scalar value as it can appear in a row, series, list or dict. -/
inductive Scalar where
  | sint (n : Int)
  | sstr (s : String)
  | sbool (b : Bool)
deriving DecidableEq

/-- One dataframe row, as `to_dict('records')` renders it: an ordered mapping
from column name to value. -/
abbrev Row := List (String × Scalar)

/-- A Python runtime value of the kinds the capture loop distinguishes. -/
inductive PyVal where
  | dataframe (rows : List Row) (columns : List String)
  | series (entries : List (String × Scalar)) (name : Option String)
  | vint (n : Int)
  | vfloat (x : Rat)
  | vstr (s : String)
  | vbool (b : Bool)
  | vlist (elems : List Scalar)
  | vdict (entries : List (String × Scalar))
  | vmodule (modName : String)
deriving DecidableEq

/-- Python repr of a scalar, as it appears inside str(list) / str(dict). -/
def Scalar.pyRepr : Scalar → String
  | .sint n => toString n
  | .sstr s => "'" ++ s ++ "'"
  | .sbool b => if b then "True" else "False"

/-- Python str() of a value, as the subprocess wrapper's size check
`len(str(var_value))` sees it: lists render as `[a, b]`, dicts as
`\x7b'k': v\x7d`. -/
def pyStr : PyVal → String
  | .vlist es => "[" ++ String.intercalate ", " (es.map Scalar.pyRepr) ++ "]"
  | .vdict es =>
      "\x7b" ++
        String.intercalate ", "
          (es.map (fun kv => "'" ++ kv.1 ++ "': " ++ kv.2.pyRepr)) ++ "\x7d"
  | .vint n => toString n
  | .vfloat x => toString x
  | .vstr s => s
  | .vbool b => if b then "True" else "False"
  | .dataframe _ _ => ""
  | .series _ _ => ""
  | .vmodule m => m

/-- One captured entry of the result envelope, mirroring the JSON shapes the
wrappers emit: a dataframe entry carries records, columns and shape; a
series entry carries its data and name; a scalar/collection entry carries
the type name and the raw value; a plots entry carries artifact names. -/
inductive Captured where
  | cdataframe (records : List Row) (columns : List String) (shape : Nat × Nat)
  | cseries (data : List (String × Scalar)) (name : Option String)
  | cscalar (typeName : String) (v : PyVal)
  | cplots (files : List String)
deriving DecidableEq

/-! ## Result capture (the wrappers' variable classification) -/

/-- Per-variable body of the capture loop in CodeExecutor._wrap_code
(code_executor.py lines 197-217): skip names starting with an underscore;
dataframes are serialized with `to_dict('records')` on the WHOLE frame (no
row truncation), series with full `to_dict()`, and int/float/str/bool/list/
dict values are stored unconditionally (no size check); anything else
(module handles etc.) is skipped.  The source iterates the live `locals()`
dict; this function is the loop body applied to one (name, value) pair,
accumulating into the `__result` mapping. -/
def captureVarDocker (acc : List (String × Captured)) (nv : String × PyVal) :
    List (String × Captured) :=
  if strStartsWith nv.1 "_" then acc
  else
    match nv.2 with
    | .dataframe rows cols =>
        acc ++ [(nv.1, .cdataframe rows cols (rows.length, cols.length))]
    | .series entries nm => acc ++ [(nv.1, .cseries entries nm)]
    | .vint n => acc ++ [(nv.1, .cscalar "int" (.vint n))]
    | .vfloat x => acc ++ [(nv.1, .cscalar "float" (.vfloat x))]
    | .vstr s => acc ++ [(nv.1, .cscalar "str" (.vstr s))]
    | .vbool b => acc ++ [(nv.1, .cscalar "bool" (.vbool b))]
    | .vlist es => acc ++ [(nv.1, .cscalar "list" (.vlist es))]
    | .vdict es => acc ++ [(nv.1, .cscalar "dict" (.vdict es))]
    | .vmodule _ => acc

/-- The library handles the subprocess capture loop excludes by name
(subprocess_executor.py line 220). -/
def subprocExcludedNames : List String := ["pd", "np", "plt", "json", "matplotlib"]

/-- Per-variable body of the capture loop in SubprocessExecutor._wrap_code
(subprocess_executor.py lines 219-245): skip underscore-prefixed names and
the library handles; dataframes are serialized via `head(1000)` (row
truncation) with the original shape, series via `head(1000)`, scalars
unconditionally, and list/dict values only when `len(str(var_value))` is
under 10000. -/
def captureVarSubproc (acc : List (String × Captured)) (nv : String × PyVal) :
    List (String × Captured) :=
  if strStartsWith nv.1 "_" then acc
  else if nv.1 ∈ subprocExcludedNames then acc
  else
    match nv.2 with
    | .dataframe rows cols =>
        acc ++ [(nv.1, .cdataframe (rows.take 1000) cols (rows.length, cols.length))]
    | .series entries nm => acc ++ [(nv.1, .cseries (entries.take 1000) nm)]
    | .vint n => acc ++ [(nv.1, .cscalar "int" (.vint n))]
    | .vfloat x => acc ++ [(nv.1, .cscalar "float" (.vfloat x))]
    | .vstr s => acc ++ [(nv.1, .cscalar "str" (.vstr s))]
    | .vbool b => acc ++ [(nv.1, .cscalar "bool" (.vbool b))]
    | .vlist es =>
        if (pyStr (.vlist es)).length < 10000 then
          acc ++ [(nv.1, .cscalar "list" (.vlist es))]
        else acc
    | .vdict es =>
        if (pyStr (.vdict es)).length < 10000 then
          acc ++ [(nv.1, .cscalar "dict" (.vdict es))]
        else acc
    | .vmodule _ => acc

/-- The docker capture loop over a whole variable environment (the
per-variable classification folded over the environment in order). -/
def captureEnvDocker (env : List (String × PyVal)) : List (String × Captured) :=
  env.foldl captureVarDocker []

/-- The subprocess capture loop over a whole variable environment. -/
def captureEnvSubproc (env : List (String × PyVal)) : List (String × Captured) :=
  env.foldl captureVarSubproc []

/-! ## The generated program's observable outcome -/

/-- Exception data the wrappers capture: `str(e)` and
`traceback.format_exc()`. -/
structure ExnInfo where
  message : String
  tracebackText : String
deriving DecidableEq

/-- Contents of the result.json file a wrapped run writes: either the
captured-results mapping, or the single reserved `__error` key holding the
exception message and formatted traceback. -/
inductive Envelope where
  | results (entries : List (String × Captured))
  | errored (message : String) (tracebackText : String)
deriving DecidableEq

/-- The top-level keys of a written envelope. -/
def Envelope.keys : Envelope → List String
  | .results es => es.map Prod.fst
  | .errored _ _ => ["__error"]

/-- What a run of the generated program leaves behind: the envelope file (if
written) and the process exit code. -/
structure GenRun where
  envelope : Option Envelope
  exitCode : Int
deriving DecidableEq

/-- Model of the guarded block and its exception boundary in the program
CodeExecutor._wrap_code generates (code_executor.py lines 182-239): the
user code either finishes with a final variable environment or raises.  On
success the capture loop's mapping is written and the program exits 0; on
an exception the handler writes `{'__error': {'error': str(e), 'traceback':
traceback.format_exc()}}` — a fresh dict holding only the reserved key —
and calls sys.exit(1). -/
def dockerProgram (userRun : Except ExnInfo (List (String × PyVal))) : GenRun :=
  match userRun with
  | .error e =>
      { envelope := some (.errored e.message e.tracebackText), exitCode := 1 }
  | .ok env =>
      { envelope := some (.results (captureEnvDocker env)), exitCode := 0 }

/-- The plot artifact names the subprocess wrapper records: at most the
first five open figures, saved as plot_0.png, plot_1.png, ...
(subprocess_executor.py lines 248-258). -/
def subprocPlotNames (figCount : Nat) : List String :=
  (List.range (min figCount 5)).map (fun i => "plot_" ++ toString i ++ ".png")

/-- Model of the guarded block in the program SubprocessExecutor._wrap_code
generates (subprocess_executor.py lines 204-273): like the docker one, but
on success the `__plots` entry is appended when any figure was open. -/
def subprocProgram (userRun : Except ExnInfo (List (String × PyVal)))
    (figCount : Nat) : GenRun :=
  match userRun with
  | .error e =>
      { envelope := some (.errored e.message e.tracebackText), exitCode := 1 }
  | .ok env =>
      let cap := captureEnvSubproc env
      let plots := subprocPlotNames figCount
      let entries :=
        if plots.isEmpty then cap else cap ++ [("__plots", .cplots plots)]
      { envelope := some (.results entries), exitCode := 0 }

/-! ## Data-loading statements the wrappers emit -/

/-- The load statement(s) CodeExecutor._wrap_code emits for one data binding
(code_executor.py lines 172-180): dispatch on the lowercased extension of
the bound path; ".csv" emits a pd.read_csv of the file name inside the
mounted workspace, ".xlsx"/".xls" a pd.read_excel, any other extension
emits nothing (the binding is silently skipped). -/
def dockerBindingLines (varName filePath : String) : List String :=
  let ext := strLower (pathSuffix filePath)
  if ext = ".csv" then
    [varName ++ " = pd.read_csv('/sandbox/workspace/" ++ pathName filePath ++ "')\n"]
  else if ext = ".xlsx" ∨ ext = ".xls" then
    [varName ++ " = pd.read_excel('/sandbox/workspace/" ++ pathName filePath ++ "')\n"]
  else []

/-- The load statement(s) SubprocessExecutor._wrap_code emits for one data
binding (subprocess_executor.py lines 194-202): same extension dispatch,
with the absolute path under the uploads directory. -/
def subprocBindingLines (varName filePath : String) : List String :=
  let ext := strLower (pathSuffix filePath)
  if ext = ".csv" then
    [varName ++ " = pd.read_csv('uploads/" ++ filePath ++ "')\n"]
  else if ext = ".xlsx" ∨ ext = ".xls" then
    [varName ++ " = pd.read_excel('uploads/" ++ filePath ++ "')\n"]
  else []

/-- All load statements for a bindings mapping, in iteration order. -/
def dockerLoadLines (dataFiles : List (String × String)) : List String :=
  dataFiles.flatMap (fun vp => dockerBindingLines vp.1 vp.2)

/-- All load statements for a bindings mapping, subprocess variant. -/
def subprocLoadLines (dataFiles : List (String × String)) : List String :=
  dataFiles.flatMap (fun vp => subprocBindingLines vp.1 vp.2)

/-! ## Executor lifecycle and result collection -/

/-- The raw observable outcome of the spawned run, as execute_code sees it:
whether the wall-clock timeout fired (subprocess.TimeoutExpired), the exit
code, captured stdout/stderr, and the contents of the result.json file if
it exists in the workspace. -/
structure RawRun where
  timedOut : Bool
  exitCode : Int
  stdoutText : String
  stderrText : String
  resultFile : Option Envelope
deriving DecidableEq

/-- The (success, output, result_data) triple execute_code returns. -/
structure Outcome where
  success : Bool
  output : String
  resultData : Option Envelope
deriving DecidableEq

/-- Workspace lifecycle effects of one execution, tagged with the run's
fresh workspace (the `tempfile.TemporaryDirectory`). -/
inductive Event where
  | wsCreate (ws : Nat)
  | writeCode (ws : Nat)
  | spawn (ws : Nat)
  | kill (ws : Nat)
  | wsDestroy (ws : Nat)
deriving DecidableEq

/-- The workspace an event belongs to. -/
def Event.wsOf : Event → Nat
  | .wsCreate w => w
  | .writeCode w => w
  | .spawn w => w
  | .kill w => w
  | .wsDestroy w => w

/-- Model of CodeExecutor.execute_code after validation-free entry
(code_executor.py lines 79-143): a fresh TemporaryDirectory is created, the
wrapped code written, and the docker client spawned.  On
subprocess.TimeoutExpired (subprocess.run kills the spawned client process
before re-raising) the timeout message is returned with no data; otherwise
a nonzero exit code returns the stderr-based error with no data, and a
zero exit returns success with the result file's parsed contents (or none
when the file is absent).  The `with` block destroys the workspace on
every path. -/
def CodeExecutor.executeCode (timeout : Nat) (ws : Nat) (raw : RawRun) :
    Outcome × List Event :=
  if raw.timedOut then
    (⟨false, "Code execution timed out after " ++ toString timeout ++ " seconds",
       none⟩,
     [Event.wsCreate ws, Event.writeCode ws, Event.spawn ws, Event.kill ws,
      Event.wsDestroy ws])
  else if raw.exitCode ≠ 0 then
    (⟨false, "Execution error: " ++ raw.stderrText, none⟩,
     [Event.wsCreate ws, Event.writeCode ws, Event.spawn ws, Event.wsDestroy ws])
  else
    match raw.resultFile with
    | some env =>
        (⟨true, raw.stdoutText, some env⟩,
         [Event.wsCreate ws, Event.writeCode ws, Event.spawn ws,
          Event.wsDestroy ws])
    | none =>
        (⟨true, raw.stdoutText, none⟩,
         [Event.wsCreate ws, Event.writeCode ws, Event.spawn ws,
          Event.wsDestroy ws])

/-- Model of SubprocessExecutor.execute_code (subprocess_executor.py lines
34-90): identical collection logic; on subprocess.TimeoutExpired the parent
calls process.kill() explicitly before returning the timeout outcome, and
the TemporaryDirectory is destroyed on every path. -/
def SubprocessExecutor.executeCode (timeout : Nat) (ws : Nat) (raw : RawRun) :
    Outcome × List Event :=
  if raw.timedOut then
    (⟨false, "Code execution timed out after " ++ toString timeout ++ " seconds",
       none⟩,
     [Event.wsCreate ws, Event.writeCode ws, Event.spawn ws, Event.kill ws,
      Event.wsDestroy ws])
  else if raw.exitCode ≠ 0 then
    (⟨false, "Execution error: " ++ raw.stderrText, none⟩,
     [Event.wsCreate ws, Event.writeCode ws, Event.spawn ws, Event.wsDestroy ws])
  else
    match raw.resultFile with
    | some env =>
        (⟨true, raw.stdoutText, some env⟩,
         [Event.wsCreate ws, Event.writeCode ws, Event.spawn ws,
          Event.wsDestroy ws])
    | none =>
        (⟨true, raw.stdoutText, none⟩,
         [Event.wsCreate ws, Event.writeCode ws, Event.spawn ws,
          Event.wsDestroy ws])

/-! ## Resource limits of the restricted-process backend -/

/-- The five (soft, hard) limits SubprocessExecutor._set_resource_limits
installs. -/
structure RLimitSet where
  rlimitAs : Nat × Nat
  rlimitCpu : Nat × Nat
  rlimitNproc : Nat × Nat
  rlimitFsize : Nat × Nat
  rlimitCore : Nat × Nat
deriving DecidableEq

/-- Model of SubprocessExecutor._set_resource_limits (subprocess_executor.py
lines 110-127): address space of memory_limit_mb * 1024 * 1024 bytes, CPU
time of timeout + 5 seconds, one process, a 10 * 1024 * 1024 byte file-size
cap, and core dumps disabled. -/
def setResourceLimits (timeout memoryLimitMb : Nat) : RLimitSet :=
  { rlimitAs := (memoryLimitMb * 1024 * 1024, memoryLimitMb * 1024 * 1024)
  , rlimitCpu := (timeout + 5, timeout + 5)
  , rlimitNproc := (1, 1)
  , rlimitFsize := (10 * 1024 * 1024, 10 * 1024 * 1024)
  , rlimitCore := (0, 0) }

/-- A step of the child process between fork and the generated program. -/
inductive ChildStep where
  | setLimits (l : RLimitSet)
  | runUserProgram
deriving DecidableEq

/-- Model of the Popen call of SubprocessExecutor.execute_code
(subprocess_executor.py lines 59-67): preexec_fn=self._set_resource_limits
is passed whenever os.name is not "nt", and a preexec function runs in the
child after fork and before the interpreter starts on the wrapped program,
so the limits are in force strictly before any user logic. -/
def spawnChildSteps (osName : String) (timeout memoryLimitMb : Nat) :
    List ChildStep :=
  (if osName ≠ "nt" then
    [ChildStep.setLimits (setResourceLimits timeout memoryLimitMb)]
  else []) ++ [ChildStep.runUserProgram]

/-! ## The hosting service's dispatch (main.py) -/

/-- The method names class CodeExecutor defines (code_executor.py). -/
def CodeExecutor.methodNames : List String :=
  ["__init__", "build_sandbox_image", "execute_code", "_wrap_code",
   "validate_code"]

/-- The method names class SubprocessExecutor defines
(subprocess_executor.py). -/
def SubprocessExecutor.methodNames : List String :=
  ["__init__", "execute_code", "_create_restricted_env",
   "_set_resource_limits", "_wrap_code", "validate_code"]

/-- The backend selected once at startup (main.py lines 68-81): CodeExecutor
when docker is detected, SubprocessExecutor otherwise. -/
inductive Backend where
  | docker
  | subproc
deriving DecidableEq

/-- The selected executor's class name. -/
def Backend.className : Backend → String
  | .docker => "CodeExecutor"
  | .subproc => "SubprocessExecutor"

/-- The selected executor's method names. -/
def Backend.methodNames : Backend → List String
  | .docker => CodeExecutor.methodNames
  | .subproc => SubprocessExecutor.methodNames

/-- Model of Python attribute lookup on the selected executor instance:
ok when the class defines the attribute, AttributeError otherwise. -/
def getattrExecutor (b : Backend) (attr : String) : Except String Unit :=
  if attr ∈ b.methodNames then Except.ok ()
  else
    Except.error
      ("AttributeError: '" ++ b.className ++ "' object has no attribute '" ++
        attr ++ "'")

/-- Outcome of an API-level call in main.py. -/
inductive ApiResult where
  | ok (body : String)
  | httpError (status : Nat) (detail : String)
deriving DecidableEq

/-- Model of main.py execute_code_internal (lines 661-678): the handler
evaluates `code_executor.execute(request.code, data_files)` inside a
try/except whose except-branch raises HTTPException(status_code=500).
The pair's second component records whether the executor's execution
method was actually entered (user code reached a sandbox). -/
def executeCodeInternalModel (b : Backend) (code : String) :
    ApiResult × Bool :=
  match getattrExecutor b "execute" with
  | .error msg => (.httpError 500 msg, false)
  | .ok _ => (.ok code, true)

/-- Model of main.py execute_health (lines 784-798): the endpoint evaluates
`code_executor.execute("print('healthy')", {})` in a try/except and reports
status "unhealthy" with the error text when it raises. -/
def executeHealthModel (b : Backend) : String × Option String :=
  match getattrExecutor b "execute" with
  | .error msg => ("unhealthy", some msg)
  | .ok _ => ("healthy", none)

/-! ## The subprocess wrapper's builtins stripping -/

/-- The keys of the safe_builtins dict in SubprocessExecutor._wrap_code
(subprocess_executor.py lines 158-173). -/
def safeBuiltins : List String :=
  ["abs", "all", "any", "ascii", "bin", "bool", "bytearray", "bytes",
   "chr", "complex", "dict", "divmod", "enumerate", "filter", "float",
   "format", "frozenset", "hash", "hex", "int", "isinstance", "issubclass",
   "iter", "len", "list", "map", "max", "min", "next", "object",
   "oct", "ord", "pow", "print", "range", "repr", "reversed", "round",
   "set", "slice", "sorted", "str", "sum", "tuple", "type", "zip",
   "False", "None", "True", "__name__", "__doc__"]

/-- Model of the builtins-stripping loop of the generated subprocess program
(subprocess_executor.py lines 175-181):

    for name in dir(builtins):
        if name not in safe_builtins:
            try:
                delattr(builtins, name)
            except:
                pass

The first argument is dir(builtins) (sorted attribute names), the second
the module's current attribute list.  A deletion takes effect only while
the name `delattr` itself still resolves in builtins — once the loop has
deleted `delattr` (it is not in safe_builtins), every later call raises
NameError, which the bare except swallows. -/
def stripBuiltins : List String → List String → List String
  | [], attrs => attrs
  | n :: rest, attrs =>
    if n ∈ safeBuiltins then stripBuiltins rest attrs
    else if "delattr" ∈ attrs then stripBuiltins rest (attrs.erase n)
    else stripBuiltins rest attrs

/-! ## Helper lemmas -/

/-- The stripping loop only ever deletes attributes: whatever survives was
already present. -/
theorem stripBuiltins_subset (names : List String) :
    ∀ attrs x, x ∈ stripBuiltins names attrs → x ∈ attrs := by
  induction names with
  | nil =>
    intro attrs x h
    simpa [stripBuiltins] using h
  | cons n rest ih =>
    intro attrs x h
    simp only [stripBuiltins] at h
    by_cases hs : n ∈ safeBuiltins
    · rw [if_pos hs] at h
      exact ih attrs x h
    · rw [if_neg hs] at h
      by_cases hd : "delattr" ∈ attrs
      · rw [if_pos hd] at h
        exact List.erase_subset _ _ (ih _ x h)
      · rw [if_neg hd] at h
        exact ih attrs x h

/-! ## Claim theorems -/

/-- C1 (evidence of the code bug): in the generated restricted-process
program, the builtins-stripping loop deletes `__import__` from the builtins
module whenever `__import__` is processed while the name `delattr` still
resolves — which holds for CPython's sorted dir(builtins), where
`__import__` precedes `delattr`.  Since the wrapper's `import pandas as pd`
(and every later import) needs builtins.__import__, no generated
subprocess program can reach the user code, so executing `x = 5` with no
bindings cannot return success with `{x: {type: int, data: 5}}` as the
claim states. -/
theorem c1_strip_deletes_dunder_import (pre post attrs : List String)
    (hnodup : attrs.Nodup) (hdel : "delattr" ∈ attrs)
    (hpre : "delattr" ∉ pre) :
    "__import__" ∉ stripBuiltins (pre ++ "__import__" :: post) attrs := by
  induction pre generalizing attrs with
  | nil =>
    intro hmem
    simp only [List.nil_append, stripBuiltins] at hmem
    rw [if_neg (by decide), if_pos hdel] at hmem
    have hsub := stripBuiltins_subset post _ _ hmem
    exact (hnodup.mem_erase_iff.mp hsub).1 rfl
  | cons n pre ih =>
    intro hmem
    simp only [List.cons_append, stripBuiltins] at hmem
    by_cases hs : n ∈ safeBuiltins
    · rw [if_pos hs] at hmem
      exact ih attrs hnodup hdel (fun h => hpre (List.mem_cons_of_mem n h)) hmem
    · rw [if_neg hs, if_pos hdel] at hmem
      have hne : n ≠ "delattr" := fun h => hpre (h ▸ List.mem_cons_self n pre)
      exact ih (attrs.erase n) (hnodup.erase n)
        ((List.mem_erase_of_ne (Ne.symm hne)).mpr hdel)
        (fun h => hpre (List.mem_cons_of_mem n h)) hmem

/-- C1 witness: on a concrete sorted slice of dir(builtins) containing both
names, `__import__` is gone after the stripping loop. -/
theorem c1_strip_deletes_dunder_import_witness :
    "__import__" ∉ stripBuiltins
        ["ArithmeticError", "__import__", "abs", "delattr", "eval", "print"]
        ["ArithmeticError", "__import__", "abs", "delattr", "eval", "print"] :=
  c1_strip_deletes_dunder_import ["ArithmeticError"]
    ["abs", "delattr", "eval", "print"]
    ["ArithmeticError", "__import__", "abs", "delattr", "eval", "print"]
    (by decide) (by decide) (by decide)

/-- C2: both executor classes define execute_code but no attribute named
`execute`, so the hosting service's `code_executor.execute(...)` call in
execute_code_internal raises AttributeError and is reported as HTTP 500
with user code never reaching a sandbox, and the health check reports
status "unhealthy" — on whichever backend was selected. -/
theorem c2_dispatch_uses_missing_execute :
    ∀ b : Backend,
      "execute" ∉ b.methodNames ∧
      "execute_code" ∈ b.methodNames ∧
      (∀ code, executeCodeInternalModel b code =
        (.httpError 500
          ("AttributeError: '" ++ b.className ++
            "' object has no attribute 'execute'"), false)) ∧
      executeHealthModel b =
        ("unhealthy", some
          ("AttributeError: '" ++ b.className ++
            "' object has no attribute 'execute'")) := by
  intro b
  cases b <;> exact ⟨by decide, by decide, fun _ => rfl, rfl⟩

/-- C3 counterexample: the input "eval(" is syntactically invalid (the
modelled CPython check rejects it), yet validate reports the denylist
detail, not a syntax-error detail, because the denylist is checked first —
refuting the claim's universally quantified syntax-error clause. -/
theorem c3_syntax_detail_counterexample :
    CodeExecutor.validateCode compileStub "eval(" =
        (false, some "Forbidden pattern detected: eval(") ∧
      compileStub "eval(" = some "unexpected EOF while parsing" ∧
      (CodeExecutor.validateCode compileStub "eval(").2 ≠
        some ("Syntax error: " ++ "unexpected EOF while parsing") := by
  exact ⟨by decide, by decide, by decide⟩

/-- C3 (amended): every code whose lowercased text contains a denylisted
pattern is rejected with the first matched pattern as the reported detail,
and a rejection with a syntax-error detail is produced exactly when no
denylisted pattern occurs and the syntax check fails.  The validator is a
pure function over the code text: it creates no workspace and runs no
code. -/
theorem c3_validator_rejection_details (codeChk : String → Option String)
    (code : String) :
    (∀ p, dockerForbiddenPatterns.find?
        (fun q => strContains (strLower code) (strLower q)) = some p →
      CodeExecutor.validateCode codeChk code =
          (false, some ("Forbidden pattern detected: " ++ p)) ∧
        p ∈ dockerForbiddenPatterns ∧
        strContains (strLower code) (strLower p) = true) ∧
    (dockerForbiddenPatterns.find?
        (fun q => strContains (strLower code) (strLower q)) = none →
      ∀ e, codeChk code = some e →
        CodeExecutor.validateCode codeChk code =
          (false, some ("Syntax error: " ++ e))) := by
  constructor
  · intro p hp
    refine ⟨?_, List.mem_of_find?_eq_some hp, ?_⟩
    · simp only [CodeExecutor.validateCode]
      rw [hp]
    · have h2 := List.find?_some hp
      simpa using h2
  · intro hn e he
    simp only [CodeExecutor.validateCode]
    rw [hn, he]

/-- C3 witness: a concrete denylisted input is rejected with the matched
pattern as detail. -/
theorem c3_validator_rejection_details_witness :
    CodeExecutor.validateCode compileStub "result = eval(data)" =
      (false, some ("Forbidden pattern detected: " ++ "eval(")) :=
  ((c3_validator_rejection_details compileStub "result = eval(data)").1
    "eval(" (by decide)).1

/-- C4 counterexample: for a run whose result envelope exists and holds the
reserved error key (the wrapper's error path also exits 1), the collector
returns the stderr-based message with NO structured result data: the
captured message and traceback are not surfaced to the caller, refuting
the claim. -/
theorem c4_error_envelope_not_surfaced_counterexample :
    (CodeExecutor.executeCode 30 0
        { timedOut := false
        , exitCode := (dockerProgram (.error
            ⟨"division by zero", "Traceback: ZeroDivisionError"⟩)).exitCode
        , stdoutText := ""
        , stderrText := ""
        , resultFile := (dockerProgram (.error
            ⟨"division by zero", "Traceback: ZeroDivisionError"⟩)).envelope }).1 =
      ⟨false, "Execution error: ", none⟩ ∧
    strContains "Execution error: " "division by zero" = false := by
  exact ⟨by decide, by decide⟩

/-- C4 (amended): when the generated program's guarded block raises, the
run exits nonzero, and the collector of either backend returns succeeded =
false with message "Execution error: " followed by the captured stderr and
resultData = none — the error envelope file is never read on this path, so
the structured message and traceback are not returned to the caller. -/
theorem c4_error_run_collection (timeout ws : Nat) (e : ExnInfo)
    (stdoutText stderrText : String) :
    (CodeExecutor.executeCode timeout ws
        { timedOut := false, exitCode := (dockerProgram (.error e)).exitCode,
          stdoutText := stdoutText, stderrText := stderrText,
          resultFile := (dockerProgram (.error e)).envelope }).1 =
      ⟨false, "Execution error: " ++ stderrText, none⟩ ∧
    (SubprocessExecutor.executeCode timeout ws
        { timedOut := false, exitCode := (subprocProgram (.error e) 0).exitCode,
          stdoutText := stdoutText, stderrText := stderrText,
          resultFile := (subprocProgram (.error e) 0).envelope }).1 =
      ⟨false, "Execution error: " ++ stderrText, none⟩ := by
  exact ⟨rfl, rfl⟩

/-- C5: every timed-out execution returns success = false with the timeout
message and no result data, and its event trace contains the forced kill of
the spawned process and the workspace destruction — for both backends. -/
theorem c5_timeout_outcome (timeout ws : Nat) (raw : RawRun)
    (h : raw.timedOut = true) :
    (CodeExecutor.executeCode timeout ws raw).1 =
        ⟨false, "Code execution timed out after " ++ toString timeout ++
          " seconds", none⟩ ∧
      Event.kill ws ∈ (CodeExecutor.executeCode timeout ws raw).2 ∧
      Event.wsDestroy ws ∈ (CodeExecutor.executeCode timeout ws raw).2 ∧
      (SubprocessExecutor.executeCode timeout ws raw).1 =
        ⟨false, "Code execution timed out after " ++ toString timeout ++
          " seconds", none⟩ ∧
      Event.kill ws ∈ (SubprocessExecutor.executeCode timeout ws raw).2 ∧
      Event.wsDestroy ws ∈ (SubprocessExecutor.executeCode timeout ws raw).2 := by
  simp [CodeExecutor.executeCode, SubprocessExecutor.executeCode, h]

/-- C5 witness: a concrete timed-out run of both backends. -/
theorem c5_timeout_outcome_witness :
    (CodeExecutor.executeCode 1 0 ⟨true, 0, "", "", none⟩).1 =
        ⟨false, "Code execution timed out after " ++ toString 1 ++
          " seconds", none⟩ ∧
      Event.kill 0 ∈ (CodeExecutor.executeCode 1 0 ⟨true, 0, "", "", none⟩).2 ∧
      Event.wsDestroy 0 ∈ (CodeExecutor.executeCode 1 0 ⟨true, 0, "", "", none⟩).2 ∧
      (SubprocessExecutor.executeCode 1 0 ⟨true, 0, "", "", none⟩).1 =
        ⟨false, "Code execution timed out after " ++ toString 1 ++
          " seconds", none⟩ ∧
      Event.kill 0 ∈ (SubprocessExecutor.executeCode 1 0 ⟨true, 0, "", "", none⟩).2 ∧
      Event.wsDestroy 0 ∈ (SubprocessExecutor.executeCode 1 0 ⟨true, 0, "", "", none⟩).2 :=
  c5_timeout_outcome 1 0 ⟨true, 0, "", "", none⟩ rfl

/-- C6: whenever the guarded user-code block raises, the generated program
of either backend writes an envelope whose only top-level key is the
reserved `__error` key (holding the exception message and formatted
traceback) and exits with the nonzero status 1; no result mapping from the
failed run is written alongside or instead of the error. -/
theorem c6_failure_writes_only_error_key (e : ExnInfo) (figCount : Nat) :
    (dockerProgram (.error e)).envelope.map Envelope.keys = some ["__error"] ∧
    (dockerProgram (.error e)).exitCode = 1 ∧
    (dockerProgram (.error e)).envelope =
      some (.errored e.message e.tracebackText) ∧
    (subprocProgram (.error e) figCount).envelope.map Envelope.keys =
      some ["__error"] ∧
    (subprocProgram (.error e) figCount).exitCode = 1 ∧
    (subprocProgram (.error e) figCount).envelope =
      some (.errored e.message e.tracebackText) := by
  exact ⟨rfl, rfl, rfl, rfl, rfl, rfl⟩

/-- C7 counterexample: the Container wrapper's capture loop serializes a
1001-row dataframe with all 1001 records — `to_dict('records')` on the
whole frame, no truncation to a bounded row count — refuting the claim for
that backend. -/
theorem c7_docker_no_truncation_counterexample :
    captureVarDocker []
        ("df", .dataframe (List.replicate 1001 [("a", Scalar.sint 0)]) ["a"]) =
      [("df", .cdataframe (List.replicate 1001 [("a", Scalar.sint 0)]) ["a"]
        ((List.replicate 1001 ([("a", Scalar.sint 0)] : Row)).length, 1))] ∧
    (List.replicate 1001 ([("a", Scalar.sint 0)] : Row)).length = 1001 ∧
    1000 < (List.replicate 1001 ([("a", Scalar.sint 0)] : Row)).length := by
  refine ⟨rfl, List.length_replicate 1001 _, ?_⟩
  rw [List.length_replicate]
  norm_num

/-- C7 (amended): the Restricted-Process wrapper truncates captured
dataframes to the first 1000 rows (and keeps the original shape) and
includes a captured list or dict only when len(str(value)) is under 10000;
the Container wrapper serializes captured dataframes in full and includes
list/dict values unconditionally. -/
theorem c7_capture_bounds (nm : String) (rows : List Row) (cols : List String)
    (es : List Scalar) (ds : List (String × Scalar))
    (h1 : strStartsWith nm "_" = false) (h2 : nm ∉ subprocExcludedNames) :
    captureVarSubproc [] (nm, .dataframe rows cols) =
        [(nm, .cdataframe (rows.take 1000) cols (rows.length, cols.length))] ∧
      (rows.take 1000).length ≤ 1000 ∧
      captureVarSubproc [] (nm, .vlist es) =
        (if (pyStr (.vlist es)).length < 10000 then
          [(nm, .cscalar "list" (.vlist es))]
        else []) ∧
      captureVarSubproc [] (nm, .vdict ds) =
        (if (pyStr (.vdict ds)).length < 10000 then
          [(nm, .cscalar "dict" (.vdict ds))]
        else []) ∧
      captureVarDocker [] (nm, .dataframe rows cols) =
        [(nm, .cdataframe rows cols (rows.length, cols.length))] ∧
      captureVarDocker [] (nm, .vlist es) =
        [(nm, .cscalar "list" (.vlist es))] := by
  refine ⟨?_, ?_, ?_, ?_, ?_, ?_⟩ <;>
    simp [captureVarSubproc, captureVarDocker, h1, h2, List.length_take]

/-- C7 witness: a concrete captured dataframe under the subprocess bounds. -/
theorem c7_capture_bounds_witness :
    captureVarSubproc [] ("df", .dataframe [] []) =
      [("df", .cdataframe [] [] (0, 0))] := by
  simpa using (c7_capture_bounds "df" [] [] [] [] (by decide) (by decide)).1

/-- C8: every execution of either backend creates its fresh workspace
first, destroys it last on every exit path (success, nonzero exit, missing
result file, or timeout), and every lifecycle event of the run is tagged
with that run's own workspace — so no file or captured variable of one run
is visible to a later run, which owns a distinct fresh workspace. -/
theorem c8_workspace_fresh_and_destroyed (timeout ws : Nat) (raw : RawRun) :
    (CodeExecutor.executeCode timeout ws raw).2.head? =
        some (Event.wsCreate ws) ∧
      (CodeExecutor.executeCode timeout ws raw).2.getLast? =
        some (Event.wsDestroy ws) ∧
      ((CodeExecutor.executeCode timeout ws raw).2.all
        (fun ev => ev.wsOf == ws)) = true ∧
      (SubprocessExecutor.executeCode timeout ws raw).2.head? =
        some (Event.wsCreate ws) ∧
      (SubprocessExecutor.executeCode timeout ws raw).2.getLast? =
        some (Event.wsDestroy ws) ∧
      ((SubprocessExecutor.executeCode timeout ws raw).2.all
        (fun ev => ev.wsOf == ws)) = true := by
  obtain ⟨tmo, ec, so, se, rf⟩ := raw
  cases tmo <;> rcases rf with _ | env <;> by_cases h : ec = 0 <;>
    simp [CodeExecutor.executeCode, SubprocessExecutor.executeCode, h,
      Event.wsOf, List.getLast?]

/-- C9: for each data binding the wrappers emit exactly one load statement
chosen by the lowercased file extension — pd.read_csv for ".csv",
pd.read_excel for ".xlsx" and ".xls" — assigning to the binding's variable
name, and emit nothing (without error) for any other extension. -/
theorem c9_binding_load_statements (v p : String) :
    (strLower (pathSuffix p) = ".csv" →
      dockerBindingLines v p =
          [v ++ " = pd.read_csv('/sandbox/workspace/" ++ pathName p ++ "')\n"] ∧
        subprocBindingLines v p =
          [v ++ " = pd.read_csv('uploads/" ++ p ++ "')\n"]) ∧
    (strLower (pathSuffix p) = ".xlsx" ∨ strLower (pathSuffix p) = ".xls" →
      dockerBindingLines v p =
          [v ++ " = pd.read_excel('/sandbox/workspace/" ++ pathName p ++ "')\n"] ∧
        subprocBindingLines v p =
          [v ++ " = pd.read_excel('uploads/" ++ p ++ "')\n"]) ∧
    (strLower (pathSuffix p) ≠ ".csv" → strLower (pathSuffix p) ≠ ".xlsx" →
      strLower (pathSuffix p) ≠ ".xls" →
      dockerBindingLines v p = [] ∧ subprocBindingLines v p = []) ∧
    (dockerBindingLines v p).length ≤ 1 ∧
    (subprocBindingLines v p).length ≤ 1 := by
  refine ⟨?_, ?_, ?_, ?_, ?_⟩
  · intro h
    constructor <;> simp [dockerBindingLines, subprocBindingLines, h]
  · intro h
    rcases h with h | h <;>
      constructor <;> simp [dockerBindingLines, subprocBindingLines, h]
  · intro h1 h2 h3
    constructor <;> simp [dockerBindingLines, subprocBindingLines, h1, h2, h3]
  · simp only [dockerBindingLines]
    split_ifs <;> simp
  · simp only [subprocBindingLines]
    split_ifs <;> simp

/-- C9 witness: a concrete csv binding emits its single load statement in
both wrappers. -/
theorem c9_binding_load_statements_witness :
    dockerBindingLines "orders" "data.csv" =
        ["orders" ++ " = pd.read_csv('/sandbox/workspace/" ++
          pathName "data.csv" ++ "')\n"] ∧
      subprocBindingLines "orders" "data.csv" =
        ["orders" ++ " = pd.read_csv('uploads/" ++ "data.csv" ++ "')\n"] :=
  (c9_binding_load_statements "orders" "data.csv").1 (by decide)

/-- C10: on a non-Windows host the child process installs, between fork and
the start of the generated program, exactly these limits: address space of
memoryLimitMb * 2^20 bytes, CPU time of timeout + 5 seconds (strictly
above the wall-clock timeout), at most 1 process, a writable file size of
10 * 2^20 bytes, and core dumps of size 0. -/
theorem c10_resource_limits (osName : String) (timeout mb : Nat)
    (h : osName ≠ "nt") :
    spawnChildSteps osName timeout mb =
        [ChildStep.setLimits (setResourceLimits timeout mb),
          ChildStep.runUserProgram] ∧
      (setResourceLimits timeout mb).rlimitAs = (mb * 2 ^ 20, mb * 2 ^ 20) ∧
      (setResourceLimits timeout mb).rlimitCpu = (timeout + 5, timeout + 5) ∧
      timeout < (setResourceLimits timeout mb).rlimitCpu.1 ∧
      (setResourceLimits timeout mb).rlimitNproc = (1, 1) ∧
      (setResourceLimits timeout mb).rlimitFsize =
        (10 * 2 ^ 20, 10 * 2 ^ 20) ∧
      (setResourceLimits timeout mb).rlimitCore = (0, 0) := by
  have hAs : mb * 1024 * 1024 = mb * 2 ^ 20 := by ring
  refine ⟨by simp [spawnChildSteps, h], ?_, rfl, ?_, rfl,
    by norm_num [setResourceLimits], rfl⟩
  · simp only [setResourceLimits, hAs]
  · simp only [setResourceLimits]
    omega

/-- C10 witness: the limits at a concrete configuration (POSIX host,
timeout 1 second, 512 MB). -/
theorem c10_resource_limits_witness :
    spawnChildSteps "posix" 1 512 =
        [ChildStep.setLimits (setResourceLimits 1 512),
          ChildStep.runUserProgram] ∧
      (setResourceLimits 1 512).rlimitAs = (512 * 2 ^ 20, 512 * 2 ^ 20) ∧
      (setResourceLimits 1 512).rlimitCpu = (1 + 5, 1 + 5) ∧
      1 < (setResourceLimits 1 512).rlimitCpu.1 ∧
      (setResourceLimits 1 512).rlimitNproc = (1, 1) ∧
      (setResourceLimits 1 512).rlimitFsize = (10 * 2 ^ 20, 10 * 2 ^ 20) ∧
      (setResourceLimits 1 512).rlimitCore = (0, 0) :=
  c10_resource_limits "posix" 1 512 (by decide)

end Koala
